import Mathlib

/-!
A shallow embedding of `wsmon.py`, a small asynchronous website monitor.

The program keeps, per configured site, a `WSData` descriptor (url, check
interval, optional regex pattern).  One coroutine per site repeatedly calls
`monitor_website` (an HTTP GET, timing, an optional regex check of the body,
and a datastore insert); the surrounding `wrapper` loop turns any raised
exception into a synthesized failure record (status 444, "ERROR") and stops
the site after `WSData.max_retry` has been reached.  Results go either to a
PostgreSQL table (`Database`) or to an in-memory list dumped to YAML at
shutdown (`YAMLFile`).

Time is modelled by explicit clock readings (one `Nat` per `datetime.now()`
call), the HTTP transport and the regex engine by oracle parameters, and the
fallible datastore inserts by per-cycle booleans saying whether the insert
raises.  The perpetual `while True` loop is modelled with explicit fuel: the
fuel only bounds how many cycles we observe, it is not part of the program.
-/

namespace Wsmon

/-- One recorded measurement of a single probe attempt, i.e. the six column
values passed to `datastore.insert`.  Timestamps are abstract clock ticks;
`time_diff` is their difference (an integer in this model). -/
structure Observation where
  url : String
  status_code : Int
  request_time : Nat
  response_time : Nat
  time_diff : Int
  regex_check : String
  deriving Repr, DecidableEq

/-- Monitor website data attributes (`class WSData`). -/
structure WSData where
  url : String
  check_interval : Int
  pattern : Option String
  deriving Repr, DecidableEq

/-- Default of the class attribute `WSData.max_retry` (overwritten from the
config by `main`; a `Nat` here, matching its use as a retry budget). -/
def WSData.max_retry : Nat := 2

/-- `WSData.__init__`: asserts `5 <= check_interval <= 300`, then stores the
three arguments unchanged.  A failed assertion is an error result. -/
def WSData.init (url : String) (check_interval : Int) (pattern : Option String) :
    Except String WSData :=
  if 5 ≤ check_interval ∧ check_interval ≤ 300 then
    .ok ⟨url, check_interval, pattern⟩
  else
    .error "check_interval out of range"

/-- C6: `WSData` construction succeeds for every `check_interval` in
`[5, 300]`, with the `url`, `check_interval` and `pattern` fields equal to the
constructor arguments, and fails for every value outside that range. -/
theorem wsdata_construction (url : String) (i : Int) (pat : Option String) :
    (5 ≤ i ∧ i ≤ 300 → WSData.init url i pat = .ok ⟨url, i, pat⟩) ∧
    (i < 5 ∨ 300 < i → WSData.init url i pat = .error "check_interval out of range") := by
  constructor
  · intro h
    simp [WSData.init, h.1, h.2]
  · intro h
    have hn : ¬ (5 ≤ i ∧ i ≤ 300) := by omega
    simp [WSData.init, hn]

/-- Witness for C6 at the test suite's arguments: `check_interval = 111` is in
range and construction returns exactly the stored fields. -/
theorem wsdata_construction_witness :
    WSData.init "http://testsite.io" 111 (some "(.*) example") =
      .ok ⟨"http://testsite.io", 111, some "(.*) example"⟩ :=
  (wsdata_construction "http://testsite.io" 111 (some "(.*) example")).1 (by constructor <;> decide)

/-- Oracle for Python's `re` module: `compileOk p` says whether `re.compile(p)`
succeeds (it raises `re.error` on an invalid pattern), and `searches p text`
says whether the compiled pattern matches anywhere in `text`
(`pattern.search(text)` returns a match object). -/
structure RegexEngine where
  compileOk : String → Bool
  searches : String → String → Bool

/-- Python truthiness of `site.pattern` in `if site.pattern:`: `None` and the
empty string are falsy, every other string is truthy. -/
def patternTruthy : Option String → Bool
  | none => false
  | some s => s != ""

/-- Result of `session.get(site.url)` together with reading the body:
either a status code and decoded text, or a raised transport error. -/
inductive HttpResult where
  | success (status : Int) (text : String)
  | failure
  deriving Repr, DecidableEq

/-- The environment one loop cycle runs in: the HTTP outcome, the clock
readings of the four `datetime.now()` calls that can occur in the cycle
(`tReq`/`tResp` in `monitor_website`, `tErr1`/`tErr2` in `wrapper`'s except
block), and whether each of the two `datastore.insert` calls raises. -/
structure CycleEnv where
  http : HttpResult
  tReq : Nat
  tResp : Nat
  insertFails : Bool
  tErr1 : Nat
  tErr2 : Nat
  errInsertFails : Bool
  deriving Repr, DecidableEq

/-- Outcome of one `monitor_website` call: it returned normally after
successfully inserting the Observation, or an exception propagated out of it
(transport error, `re.compile` error, or a failing insert). -/
inductive MWResult where
  | ok (obs : Observation)
  | raised
  deriving Repr, DecidableEq

/-- The `regexp_check` computation of `monitor_website`: with a truthy
pattern, compile it (compilation error raises) and search the body; otherwise
the outcome is `"not used"`. -/
def regexCheckOf (eng : RegexEngine) (pattern : Option String) (text : String) :
    Except Unit String :=
  if patternTruthy pattern then
    match pattern with
    | some p =>
      if eng.compileOk p then
        if eng.searches p text then .ok (p ++ " found") else .ok "no match found"
      else .error ()
    | none => .error ()
  else
    .ok "not used"

/-- `monitor_website(session, site)`: GET the url (recording the clock before
and after), compute the regex check, and insert the Observation into the
datastore.  Any transport error, compile error or insert error raises. -/
def monitor_website (eng : RegexEngine) (site : WSData) (env : CycleEnv) : MWResult :=
  match env.http with
  | .failure => .raised
  | .success status text =>
    match regexCheckOf eng site.pattern text with
    | .error _ => .raised
    | .ok rc =>
      if env.insertFails then .raised
      else
        .ok ⟨site.url, status, env.tReq, env.tResp,
             (env.tResp : Int) - (env.tReq : Int), rc⟩

/-- The failure record `wrapper` inserts in its except block:
`insert(site.url, 444, datetime.now(), datetime.now(), 0, "ERROR")`.  The two
`now()` calls are separate clock readings. -/
def failureObservation (site : WSData) (env : CycleEnv) : Observation :=
  ⟨site.url, 444, env.tErr1, env.tErr2, 0, "ERROR"⟩

/-- What one iteration of `wrapper`'s `while True` loop decides: run another
cycle carrying the given retry counter, stop monitoring this site (`break`),
or let an exception propagate out of the loop. -/
inductive CycleOutcome where
  | next (retry : Nat)
  | stopped
  | raised
  deriving Repr, DecidableEq

/-- One iteration of `wrapper`'s loop at retry counter `retry`: try
`monitor_website`; on an exception, insert the failure record (if that insert
itself raises, the exception leaves the loop), then `break` when
`retry == max_retry`, else increment `retry`.  Returns the records
successfully written this cycle, each tagged with the retry counter at write
time, and the loop outcome. -/
def wrapperCycle (maxRetry : Nat) (eng : RegexEngine) (site : WSData)
    (env : CycleEnv) (retry : Nat) : List (Nat × Observation) × CycleOutcome :=
  match monitor_website eng site env with
  | .ok obs => ([(retry, obs)], .next retry)
  | .raised =>
    if env.errInsertFails then ([], .raised)
    else if retry = maxRetry then ([(retry, failureObservation site env)], .stopped)
    else ([(retry, failureObservation site env)], .next (retry + 1))

/-- How a (fuel-bounded) run of `wrapper` ended: the fuel ran out with the
loop still going at the given retry counter, the loop stopped itself after
exhausting the retry budget, or an exception propagated out. -/
inductive RunResult where
  | fuelOut (retry : Nat)
  | stopped
  | raised
  deriving Repr, DecidableEq

/-- `wrapper(session, site)` run for at most `fuel` cycles, starting at retry
counter `retry`, where cycle `n` runs in environment `envs n`.  Returns all
records written (in order, tagged with the retry counter at write time) and
how the run ended.  The source loop starts with `retry = 0`. -/
def wrapperRun (maxRetry : Nat) (eng : RegexEngine) (site : WSData)
    (envs : Nat → CycleEnv) (retry : Nat) : Nat → List (Nat × Observation) × RunResult
  | 0 => ([], .fuelOut retry)
  | fuel + 1 =>
    match wrapperCycle maxRetry eng site (envs 0) retry with
    | (w, .stopped) => (w, .stopped)
    | (w, .raised) => (w, .raised)
    | (w, .next r) =>
      let rest := wrapperRun maxRetry eng site (fun n => envs (n + 1)) r fuel
      (w ++ rest.1, rest.2)

theorem monitor_website_raised_of_http_failure (eng : RegexEngine) (site : WSData)
    (env : CycleEnv) (h : env.http = .failure) :
    monitor_website eng site env = .raised := by
  simp [monitor_website, h]

/-- If every cycle's `monitor_website` raises and the failure-record inserts
succeed, the loop writes one failure record per cycle at retry counters
`retry, retry+1, …, maxRetry` and then stops. -/
theorem wrapperRun_always_raising (maxRetry : Nat) (eng : RegexEngine) (site : WSData) :
    ∀ (fuel retry : Nat) (envs : Nat → CycleEnv),
      retry ≤ maxRetry → maxRetry - retry < fuel →
      (∀ n, monitor_website eng site (envs n) = .raised) →
      (∀ n, (envs n).errInsertFails = false) →
      wrapperRun maxRetry eng site envs retry fuel =
        ((List.range (maxRetry + 1 - retry)).map
            (fun j => (retry + j, failureObservation site (envs j))), .stopped) := by
  intro fuel
  induction fuel with
  | zero => intro retry envs hle hfuel _ _; omega
  | succ fuel ih =>
    intro retry envs hle hfuel hraise hsink
    by_cases hstop : retry = maxRetry
    · subst hstop
      have h1 : retry + 1 - retry = 1 := by omega
      simp [wrapperRun, wrapperCycle, hraise 0, hsink 0, h1, List.range_succ]
    · have hlt : retry < maxRetry := lt_of_le_of_ne hle hstop
      have hrec := ih (retry + 1) (fun n => envs (n + 1)) (by omega) (by omega)
        (fun n => hraise (n + 1)) (fun n => hsink (n + 1))
      have hr : maxRetry + 1 - retry = (maxRetry - retry) + 1 := by omega
      have hr2 : maxRetry + 1 - (retry + 1) = maxRetry - retry := by omega
      rw [hr2] at hrec
      simp only [wrapperRun, wrapperCycle, hraise 0, hsink 0, if_neg hstop,
        Bool.false_eq_true, if_false, hrec, hr, List.range_succ_eq_map, List.map_cons,
        List.map_map]
      congr 1
      simp only [Nat.add_zero, List.singleton_append]
      congr 1
      apply List.map_congr_left
      intro j hj
      simp only [Function.comp_apply, Nat.succ_eq_add_one, Prod.mk.injEq]
      exact ⟨by omega, trivial⟩

/-- C1: with `maxRetry = 2` and a prober that raises on every cycle (and a
working sink), the monitor loop writes exactly 3 failure records, at retry
counter values 0, 1 and 2, and then stops; the result is the same for every
fuel bound of at least 3 cycles, so no 4th cycle is ever attempted. -/
theorem monitor_loop_three_failures_then_stops
    (eng : RegexEngine) (site : WSData) (envs : Nat → CycleEnv) (fuel : Nat)
    (hhttp : ∀ n, (envs n).http = .failure)
    (hsink : ∀ n, (envs n).errInsertFails = false)
    (hfuel : 3 ≤ fuel) :
    wrapperRun 2 eng site envs 0 fuel =
      ([(0, failureObservation site (envs 0)),
        (1, failureObservation site (envs 1)),
        (2, failureObservation site (envs 2))], .stopped) := by
  have h := wrapperRun_always_raising 2 eng site fuel 0 envs (by omega) (by omega)
    (fun n => monitor_website_raised_of_http_failure eng site (envs n) (hhttp n)) hsink
  simpa [List.range_succ] using h

/-- Witness for C1: a concrete always-failing transport, run with fuel 5,
yields exactly the three 444/"ERROR" records and stops. -/
theorem monitor_loop_three_failures_then_stops_witness :
    wrapperRun 2 ⟨fun _ => true, fun _ _ => true⟩ ⟨"http://a", 5, none⟩
        (fun _ => ⟨.failure, 0, 0, false, 7, 8, false⟩) 0 5 =
      ([(0, ⟨"http://a", 444, 7, 8, 0, "ERROR"⟩),
        (1, ⟨"http://a", 444, 7, 8, 0, "ERROR"⟩),
        (2, ⟨"http://a", 444, 7, 8, 0, "ERROR"⟩)], .stopped) :=
  monitor_loop_three_failures_then_stops _ _ _ 5 (fun _ => rfl) (fun _ => rfl) (by omega)

/-- Every record a cycle writes is tagged with the current retry counter, and
a cycle that continues carries either the same counter or, only when the
counter had not yet reached the budget, the counter plus one. -/
theorem wrapperCycle_writes_and_next (maxRetry : Nat) (eng : RegexEngine) (site : WSData)
    (env : CycleEnv) (retry : Nat) :
    (∀ p ∈ (wrapperCycle maxRetry eng site env retry).1, p.1 = retry) ∧
    (∀ r, (wrapperCycle maxRetry eng site env retry).2 = .next r →
      r = retry ∨ (retry ≠ maxRetry ∧ r = retry + 1)) := by
  cases hmw : monitor_website eng site env with
  | ok obs =>
    constructor
    · intro p hp
      simp [wrapperCycle, hmw] at hp
      simp [hp]
    · intro r hr
      simp [wrapperCycle, hmw] at hr
      exact Or.inl hr.symm
  | raised =>
    by_cases he : env.errInsertFails
    · constructor
      · intro p hp
        simp [wrapperCycle, hmw, he] at hp
      · intro r hr
        simp [wrapperCycle, hmw, he] at hr
    · by_cases hstop : retry = maxRetry
      · constructor
        · intro p hp
          simp [wrapperCycle, hmw, he, hstop] at hp
          simp [hp, hstop]
        · intro r hr
          simp [wrapperCycle, hmw, he, hstop] at hr
      · constructor
        · intro p hp
          simp [wrapperCycle, hmw, he, hstop] at hp
          simp [hp]
        · intro r hr
          simp [wrapperCycle, hmw, he, hstop] at hr
          exact Or.inr ⟨hstop, hr.symm⟩

theorem wrapperRun_retry_invariant (maxRetry : Nat) (eng : RegexEngine) (site : WSData) :
    ∀ (fuel : Nat) (envs : Nat → CycleEnv) (retry : Nat), retry ≤ maxRetry →
      (∀ p ∈ (wrapperRun maxRetry eng site envs retry fuel).1, p.1 ≤ maxRetry) ∧
      (∀ r, (wrapperRun maxRetry eng site envs retry fuel).2 = .fuelOut r →
        retry ≤ r ∧ r ≤ maxRetry) := by
  intro fuel
  induction fuel with
  | zero =>
    intro envs retry h
    constructor
    · intro p hp; simp [wrapperRun] at hp
    · intro r hr
      simp only [wrapperRun, RunResult.fuelOut.injEq] at hr
      omega
  | succ fuel ih =>
    intro envs retry h
    have hcyc := wrapperCycle_writes_and_next maxRetry eng site (envs 0) retry
    rcases heq : wrapperCycle maxRetry eng site (envs 0) retry with ⟨w, oc⟩
    rw [heq] at hcyc
    have hw : ∀ p ∈ w, p.1 ≤ maxRetry := by
      intro p hp
      have := hcyc.1 p hp
      omega
    cases oc with
    | stopped =>
      constructor
      · intro p hp
        simp only [wrapperRun, heq] at hp
        exact hw p hp
      · intro r hr
        simp [wrapperRun, heq] at hr
    | raised =>
      constructor
      · intro p hp
        simp only [wrapperRun, heq] at hp
        exact hw p hp
      · intro r hr
        simp [wrapperRun, heq] at hr
    | next r =>
      have hr : retry ≤ r ∧ r ≤ maxRetry := by
        rcases hcyc.2 r rfl with h1 | ⟨h1, h2⟩ <;> omega
      have hrest := ih (fun n => envs (n + 1)) r hr.2
      constructor
      · intro p hp
        simp only [wrapperRun, heq] at hp
        rcases List.mem_append.mp hp with hp | hp
        · exact hw p hp
        · exact hrest.1 p hp
      · intro rr hrr
        simp only [wrapperRun, heq] at hrr
        have := hrest.2 rr hrr
        omega

/-- C7: the retry counter is only ever carried unchanged through a successful
cycle (never reset or decremented), is incremented exactly on a failing cycle
whose counter has not yet reached `maxRetry`, and as long as it starts within
`[0, maxRetry]` every written record's counter tag and every later counter
value stays within `[0, maxRetry]` (being a `Nat`, it is never below 0). -/
theorem retry_counter_range (maxRetry : Nat) (eng : RegexEngine) (site : WSData) :
    (∀ env retry obs, monitor_website eng site env = .ok obs →
      wrapperCycle maxRetry eng site env retry = ([(retry, obs)], .next retry)) ∧
    (∀ env retry, monitor_website eng site env = .raised → env.errInsertFails = false →
      retry ≠ maxRetry →
      (wrapperCycle maxRetry eng site env retry).2 = .next (retry + 1)) ∧
    (∀ envs fuel retry, retry ≤ maxRetry →
      (∀ p ∈ (wrapperRun maxRetry eng site envs retry fuel).1, p.1 ≤ maxRetry) ∧
      (∀ r, (wrapperRun maxRetry eng site envs retry fuel).2 = .fuelOut r →
        retry ≤ r ∧ r ≤ maxRetry)) := by
  refine ⟨?_, ?_, ?_⟩
  · intro env retry obs hok
    simp [wrapperCycle, hok]
  · intro env retry hraise hsinkok hne
    simp [wrapperCycle, hraise, hsinkok, hne]
  · intro envs fuel retry h
    exact wrapperRun_retry_invariant maxRetry eng site fuel envs retry h

/-- Witness for C7 at concrete inputs: a successful cycle keeps the counter
at 0, and a run started at counter 0 with budget 2 ends with its counter
still in `[0, 2]`. -/
theorem retry_counter_range_witness :
    wrapperCycle 2 ⟨fun _ => true, fun _ _ => true⟩ ⟨"http://a", 5, none⟩
        ⟨.success 200 "body", 1, 2, false, 0, 0, false⟩ 0 =
      ([(0, ⟨"http://a", 200, 1, 2, 1, "not used"⟩)], .next 0) ∧
    ((0 : Nat) ≤ 0 ∧ (0 : Nat) ≤ 2) :=
  ⟨(retry_counter_range 2 ⟨fun _ => true, fun _ _ => true⟩ ⟨"http://a", 5, none⟩).1
      ⟨.success 200 "body", 1, 2, false, 0, 0, false⟩ 0
      ⟨"http://a", 200, 1, 2, 1, "not used"⟩ rfl,
   ((retry_counter_range 2 ⟨fun _ => true, fun _ _ => true⟩ ⟨"http://a", 5, none⟩).2.2
      (fun _ => ⟨.success 200 "body", 1, 2, false, 0, 0, false⟩) 1 0 (by omega)).2
      0 rfl⟩

/-- C2 counterexample: with a working transport (status 200) and a sink whose
record call for the success-path Observation raises, the wrapper catches the
sink error, writes a synthesized 444/"ERROR" record and continues the loop
with the retry counter incremented; the cycle outcome is `.next 1`, not a
propagated exception. -/
theorem sink_error_swallowed_counterexample :
    wrapperCycle 2 ⟨fun _ => true, fun _ _ => true⟩ ⟨"http://a", 5, none⟩
        ⟨.success 200 "body", 1, 2, true, 3, 4, false⟩ 0 =
      ([(0, ⟨"http://a", 444, 3, 4, 0, "ERROR"⟩)], .next 1) ∧
    CycleOutcome.next 1 ≠ CycleOutcome.raised := by
  exact ⟨rfl, by decide⟩

/-- C2 amended: a sink write failure raised while persisting the synthesized
failure record in the wrapper's except block propagates out of the whole
monitor loop; a sink write failure during `monitor_website`'s success-path
record is instead caught by the wrapper's bare `except Exception` and handled
exactly like a probe failure (444/"ERROR" record plus retry accounting). -/
theorem sink_error_paths (maxRetry : Nat) (eng : RegexEngine) (site : WSData) :
    (∀ env retry, monitor_website eng site env = .raised → env.errInsertFails = true →
      wrapperCycle maxRetry eng site env retry = ([], .raised)) ∧
    (∀ envs fuel retry, monitor_website eng site (envs 0) = .raised →
      (envs 0).errInsertFails = true → 1 ≤ fuel →
      wrapperRun maxRetry eng site envs retry fuel = ([], .raised)) ∧
    (∀ env retry status text rc, env.http = .success status text →
      regexCheckOf eng site.pattern text = .ok rc → env.insertFails = true →
      env.errInsertFails = false →
      monitor_website eng site env = .raised ∧
      wrapperCycle maxRetry eng site env retry =
        ([(retry, failureObservation site env)],
          if retry = maxRetry then .stopped else .next (retry + 1))) := by
  refine ⟨?_, ?_, ?_⟩
  · intro env retry hm he
    simp [wrapperCycle, hm, he]
  · intro envs fuel retry hm he hfuel
    obtain ⟨k, rfl⟩ : ∃ k, fuel = k + 1 := ⟨fuel - 1, by omega⟩
    simp [wrapperRun, wrapperCycle, hm, he]
  · intro env retry status text rc hhttp hrc hins herr
    have hmw : monitor_website eng site env = .raised := by
      simp [monitor_website, hhttp, hrc, hins]
    refine ⟨hmw, ?_⟩
    by_cases hstop : retry = maxRetry <;> simp [wrapperCycle, hmw, herr, hstop]

/-- Witness for C2's amended statement: a concrete success-path sink failure
is converted into a failure record and `.next 1`. -/
theorem sink_error_paths_witness :
    monitor_website ⟨fun _ => true, fun _ _ => true⟩ ⟨"http://a", 5, none⟩
        ⟨.success 200 "body", 1, 2, true, 3, 4, false⟩ = .raised ∧
    wrapperCycle 2 ⟨fun _ => true, fun _ _ => true⟩ ⟨"http://a", 5, none⟩
        ⟨.success 200 "body", 1, 2, true, 3, 4, false⟩ 0 =
      ([(0, ⟨"http://a", 444, 3, 4, 0, "ERROR"⟩)], .next 1) := by
  have h := (sink_error_paths 2 ⟨fun _ => true, fun _ _ => true⟩ ⟨"http://a", 5, none⟩).2.2
    ⟨.success 200 "body", 1, 2, true, 3, 4, false⟩ 0 200 "body" "not used" rfl rfl rfl rfl
  exact h

/-- If `regexCheckOf` returned a string, it is exactly the one determined by
pattern truthiness and the engine's search result. -/
theorem regexCheckOf_ok_eq (eng : RegexEngine) (pat : Option String) (text rc : String)
    (h : regexCheckOf eng pat text = .ok rc) :
    rc = if patternTruthy pat then
        (if eng.searches (pat.getD "") text then pat.getD "" ++ " found"
         else "no match found")
      else "not used" := by
  cases pat with
  | none =>
    simp [regexCheckOf, patternTruthy] at h ⊢
    exact h.symm
  | some p =>
    by_cases hp : p = ""
    · subst hp
      simp [regexCheckOf, patternTruthy] at h ⊢
      exact h.symm
    · by_cases hc : eng.compileOk p
      · by_cases hs : eng.searches p text <;>
          simp [regexCheckOf, patternTruthy, hp, hc, hs] at h ⊢ <;> exact h.symm
      · exfalso
        simp [regexCheckOf, patternTruthy, hp, hc] at h

/-- C3 counterexample: with no pattern configured, a successful probe's
recorded outcome is the code's `"not used"`, which is not the spec's
enumerated string `"not-used"`. -/
theorem regex_outcome_counterexample :
    monitor_website ⟨fun _ => true, fun _ _ => true⟩ ⟨"http://a", 5, none⟩
        ⟨.success 200 "body", 1, 2, false, 0, 0, false⟩ =
      .ok ⟨"http://a", 200, 1, 2, 1, "not used"⟩ ∧
    "not used" ≠ "not-used" := by
  exact ⟨rfl, by decide⟩

/-- C3 amended: for every successful probe the Observation's outcome is
exactly one of the enumerated strings, with the no-pattern outcome spelled
`"not used"` (space, not hyphen): `"not used"` when no (truthy) pattern is
configured, `"<pattern> found"` when the engine finds a match in the body,
and `"no match found"` otherwise. -/
theorem regex_outcome_enumerated (eng : RegexEngine) (site : WSData) (env : CycleEnv)
    (status : Int) (text : String) (obs : Observation)
    (hhttp : env.http = .success status text)
    (hok : monitor_website eng site env = .ok obs) :
    obs.regex_check =
      if patternTruthy site.pattern then
        (if eng.searches (site.pattern.getD "") text then site.pattern.getD "" ++ " found"
         else "no match found")
      else "not used" := by
  simp only [monitor_website, hhttp] at hok
  cases hrc : regexCheckOf eng site.pattern text with
  | error e => rw [hrc] at hok; simp at hok
  | ok rc =>
    rw [hrc] at hok
    by_cases hins : env.insertFails
    · simp [hins] at hok
    · simp [hins] at hok
      rw [← hok]
      exact regexCheckOf_ok_eq eng site.pattern text rc hrc

/-- Witness for C3's amended statement: pattern `"(.*) example"` against a
matching body records `"(.*) example found"`. -/
theorem regex_outcome_enumerated_witness :
    monitor_website ⟨fun _ => true, fun _ _ => true⟩ ⟨"http://a", 5, some "(.*) example"⟩
        ⟨.success 200 "this is an example", 1, 2, false, 0, 0, false⟩ =
      .ok ⟨"http://a", 200, 1, 2, 1, "(.*) example found"⟩ ∧
    (⟨"http://a", 200, 1, 2, 1, "(.*) example found"⟩ : Observation).regex_check =
      "(.*) example found" := by
  refine ⟨by decide, ?_⟩
  have h := regex_outcome_enumerated ⟨fun _ => true, fun _ _ => true⟩
    ⟨"http://a", 5, some "(.*) example"⟩
    ⟨.success 200 "this is an example", 1, 2, false, 0, 0, false⟩
    200 "this is an example" ⟨"http://a", 200, 1, 2, 1, "(.*) example found"⟩
    rfl (by decide)
  simp at h
  exact h

/-- C5 counterexample: the failure record's two timestamps come from two
separate `datetime.now()` readings; with a clock that advances between them
the written record has `request_time = 10` but `response_time = 11`, so the
two timestamps the claim says are equal differ. -/
theorem failure_times_counterexample :
    wrapperCycle 2 ⟨fun _ => true, fun _ _ => true⟩ ⟨"http://a", 5, none⟩
        ⟨.failure, 0, 0, false, 10, 11, false⟩ 0 =
      ([(0, ⟨"http://a", 444, 10, 11, 0, "ERROR"⟩)], .next 1) ∧
    (⟨"http://a", 444, 10, 11, 0, "ERROR"⟩ : Observation).request_time ≠
      (⟨"http://a", 444, 10, 11, 0, "ERROR"⟩ : Observation).response_time := by
  exact ⟨rfl, by decide⟩

/-- C5 amended: on every probe failure (with a working error-path sink write)
the loop writes exactly one synthesized failure record with
`status_code = 444`, `time_diff = 0`, `regex_check = "ERROR"`, and its
`request_time` and `response_time` taken from two consecutive
`datetime.now()` readings — which are the current time but need not be equal
to each other. -/
theorem failure_observation_fields (maxRetry : Nat) (eng : RegexEngine) (site : WSData)
    (env : CycleEnv) (retry : Nat)
    (hraise : monitor_website eng site env = .raised)
    (hsink : env.errInsertFails = false) :
    (wrapperCycle maxRetry eng site env retry).1 = [(retry, failureObservation site env)] ∧
    (failureObservation site env).url = site.url ∧
    (failureObservation site env).status_code = 444 ∧
    (failureObservation site env).time_diff = 0 ∧
    (failureObservation site env).regex_check = "ERROR" ∧
    (failureObservation site env).request_time = env.tErr1 ∧
    (failureObservation site env).response_time = env.tErr2 := by
  refine ⟨?_, rfl, rfl, rfl, rfl, rfl, rfl⟩
  by_cases hstop : retry = maxRetry <;> simp [wrapperCycle, hraise, hsink, hstop]

/-- Witness for C5's amended statement at a concrete transport failure. -/
theorem failure_observation_fields_witness :
    (wrapperCycle 2 ⟨fun _ => true, fun _ _ => true⟩ ⟨"http://a", 5, none⟩
        ⟨.failure, 0, 0, false, 10, 11, false⟩ 0).1 =
      [(0, failureObservation ⟨"http://a", 5, none⟩ ⟨.failure, 0, 0, false, 10, 11, false⟩)] ∧
    (failureObservation ⟨"http://a", 5, none⟩
        ⟨.failure, 0, 0, false, 10, 11, false⟩).status_code = 444 := by
  have h := failure_observation_fields 2 ⟨fun _ => true, fun _ _ => true⟩ ⟨"http://a", 5, none⟩
    ⟨.failure, 0, 0, false, 10, 11, false⟩ 0 rfl rfl
  exact ⟨h.1, h.2.2.1⟩

/-- C9: a site whose pattern is the empty string behaves exactly like one
with no pattern: `monitor_website` never consults the regex engine (any two
engines give the same result, so no compilation or search happens) and a
successful probe records the no-pattern outcome. -/
theorem empty_pattern_no_content_check (eng eng2 : RegexEngine) (env : CycleEnv)
    (url : String) (i : Int) :
    monitor_website eng ⟨url, i, some ""⟩ env = monitor_website eng2 ⟨url, i, none⟩ env ∧
    (∀ obs, monitor_website eng ⟨url, i, some ""⟩ env = .ok obs →
      obs.regex_check = "not used") := by
  have h1 : ∀ text, regexCheckOf eng (some "") text = .ok "not used" := by
    intro text
    simp [regexCheckOf, patternTruthy]
  have h2 : ∀ text, regexCheckOf eng2 (none : Option String) text = .ok "not used" := by
    intro text
    simp [regexCheckOf, patternTruthy]
  constructor
  · cases henv : env.http with
    | failure => simp [monitor_website, henv]
    | success status text => simp [monitor_website, henv, h1, h2]
  · intro obs hok
    cases henv : env.http with
    | failure => simp [monitor_website, henv] at hok
    | success status text =>
      simp [monitor_website, henv, h1] at hok
      by_cases hins : env.insertFails
      · simp [hins] at hok
      · simp [hins] at hok
        rw [← hok]

/-- Witness for C9 at a concrete success environment, with an engine that
would fail every compile on one side and succeed on the other. -/
theorem empty_pattern_no_content_check_witness :
    monitor_website ⟨fun _ => false, fun _ _ => false⟩ ⟨"http://a", 5, some ""⟩
        ⟨.success 200 "body", 1, 2, false, 0, 0, false⟩ =
      monitor_website ⟨fun _ => true, fun _ _ => true⟩ ⟨"http://a", 5, none⟩
        ⟨.success 200 "body", 1, 2, false, 0, 0, false⟩ ∧
    (⟨"http://a", 200, 1, 2, 1, "not used"⟩ : Observation).regex_check = "not used" :=
  ⟨(empty_pattern_no_content_check ⟨fun _ => false, fun _ _ => false⟩
      ⟨fun _ => true, fun _ _ => true⟩ ⟨.success 200 "body", 1, 2, false, 0, 0, false⟩
      "http://a" 5).1,
   (empty_pattern_no_content_check ⟨fun _ => false, fun _ _ => false⟩
      ⟨fun _ => true, fun _ _ => true⟩ ⟨.success 200 "body", 1, 2, false, 0, 0, false⟩
      "http://a" 5).2 ⟨"http://a", 200, 1, 2, 1, "not used"⟩ rfl⟩

/-- C10: a syntactically invalid pattern is not rejected at startup
(`WSData.__init__` never inspects the pattern), and since `re.compile` then
raises inside `monitor_website` on every cycle, the site emits 444/"ERROR"
failure records until the default retry budget `WSData.max_retry = 2` is
exhausted, after which that site's loop stops. -/
theorem invalid_pattern_monitoring (url : String) (badPat : String) (eng : RegexEngine)
    (envs : Nat → CycleEnv) (fuel : Nat)
    (hne : badPat ≠ "") (hcompile : eng.compileOk badPat = false)
    (hsink : ∀ n, (envs n).errInsertFails = false) (hfuel : 3 ≤ fuel) :
    WSData.init url 5 (some badPat) = .ok ⟨url, 5, some badPat⟩ ∧
    (∀ env, monitor_website eng ⟨url, 5, some badPat⟩ env = .raised) ∧
    wrapperRun WSData.max_retry eng ⟨url, 5, some badPat⟩ envs 0 fuel =
      ([(0, failureObservation ⟨url, 5, some badPat⟩ (envs 0)),
        (1, failureObservation ⟨url, 5, some badPat⟩ (envs 1)),
        (2, failureObservation ⟨url, 5, some badPat⟩ (envs 2))], .stopped) := by
  have hraise : ∀ env, monitor_website eng ⟨url, 5, some badPat⟩ env = .raised := by
    intro env
    cases henv : env.http with
    | failure => simp [monitor_website, henv]
    | success status text =>
      simp [monitor_website, henv, regexCheckOf, patternTruthy, hne, hcompile]
  refine ⟨?_, hraise, ?_⟩
  · simp only [WSData.init]
    norm_num
  · have h := wrapperRun_always_raising WSData.max_retry eng ⟨url, 5, some badPat⟩ fuel 0
      envs (by simp [WSData.max_retry]) (by simp only [WSData.max_retry]; omega)
      (fun n => hraise (envs n)) hsink
    simpa [WSData.max_retry, List.range_succ] using h

/-- Witness for C10: the concretely invalid pattern `"("` with a working
transport produces the three failure records and the loop stops. -/
theorem invalid_pattern_monitoring_witness :
    WSData.init "http://a" 5 (some "(") = .ok ⟨"http://a", 5, some "("⟩ ∧
    wrapperRun WSData.max_retry ⟨fun _ => false, fun _ _ => false⟩ ⟨"http://a", 5, some "("⟩
        (fun _ => ⟨.success 200 "body", 1, 2, false, 5, 6, false⟩) 0 4 =
      ([(0, ⟨"http://a", 444, 5, 6, 0, "ERROR"⟩),
        (1, ⟨"http://a", 444, 5, 6, 0, "ERROR"⟩),
        (2, ⟨"http://a", 444, 5, 6, 0, "ERROR"⟩)], .stopped) := by
  have h := invalid_pattern_monitoring "http://a" "(" ⟨fun _ => false, fun _ _ => false⟩
    (fun _ => ⟨.success 200 "body", 1, 2, false, 5, 6, false⟩) 4 (by decide) rfl
    (fun _ => rfl) (by omega)
  exact ⟨h.1, h.2.2⟩

/-- The File sink (`class YAMLFile`): `results` starts empty, `insert`
appends one single-entry mapping, `save` dumps the whole list as the YAML
document's top-level sequence. -/
structure YAMLFile where
  results : List (String × Observation)
  deriving Repr, DecidableEq

/-- `YAMLFile.insert`: append a mapping keyed `"<request_time> <url>"` whose
value holds the six Observation fields. -/
def YAMLFile.insert (yf : YAMLFile) (url : String) (status_code : Int)
    (request_time response_time : Nat) (time_diff : Int) (regex_check : String) :
    YAMLFile :=
  ⟨yf.results ++ [(toString request_time ++ " " ++ url,
    ⟨url, status_code, request_time, response_time, time_diff, regex_check⟩)]⟩

/-- `YAMLFile.save`: the document `yaml.dump` serializes, i.e. the
accumulated in-memory sequence. -/
def YAMLFile.save (yf : YAMLFile) : List (String × Observation) :=
  yf.results

/-- Recording a sequence of Observations through `YAMLFile.insert`. -/
def recordAll (yf : YAMLFile) : List Observation → YAMLFile
  | [] => yf
  | o :: os =>
    recordAll (yf.insert o.url o.status_code o.request_time o.response_time
      o.time_diff o.regex_check) os

theorem recordAll_results (os : List Observation) :
    ∀ yf : YAMLFile, (recordAll yf os).results =
      yf.results ++ os.map (fun o => (toString o.request_time ++ " " ++ o.url, o)) := by
  induction os with
  | nil => intro yf; simp [recordAll]
  | cons o os ih =>
    intro yf
    simp [recordAll, ih, YAMLFile.insert]

/-- C8: recording N Observations into a fresh File sink and finalizing
produces a document that is exactly the N single-entry mappings in insertion
order, each keyed `"<request_time> <url>"` and valued by the recorded
Observation's fields; in particular it has exactly N entries. -/
theorem file_sink_round_trip (os : List Observation) :
    (recordAll ⟨[]⟩ os).save =
      os.map (fun o => (toString o.request_time ++ " " ++ o.url, o)) ∧
    (recordAll ⟨[]⟩ os).save.length = os.length := by
  have h := recordAll_results os ⟨[]⟩
  constructor
  · simpa [YAMLFile.save] using h
  · simp [YAMLFile.save, h]

/-- The PostgreSQL datastore (`class Database`): connection info and table
name.  It defines `create_table` and `insert` but — unlike `YAMLFile` — no
`save` method. -/
structure Database where
  conninfo : String
  table_name : String
  deriving Repr, DecidableEq

/-- The module-level `datastore` singleton: one of the two sink variants,
chosen by the `--results2file` flag. -/
inductive Datastore where
  | database (db : Database)
  | yamlFile (yf : YAMLFile)
  deriving Repr, DecidableEq

/-- The attribute call `datastore.save()`: on a `YAMLFile` it runs `save`
(returning the document written to disk); on a `Database` the attribute
lookup itself raises `AttributeError`, because `Database` defines no `save`
method. -/
def Datastore.save : Datastore → Except String (List (String × Observation))
  | .yamlFile yf => .ok yf.save
  | .database _ => .error "AttributeError: Database object has no attribute save"

/-- How the process ends after `KeyboardInterrupt`: either the orderly
`sys.exit("Bye!")`, or an exception escaping the handler. -/
inductive ShutdownOutcome where
  | exited (message : String)
  | uncaught (error : String)
  deriving Repr, DecidableEq

/-- The `__main__` `KeyboardInterrupt` handler: call `datastore.save()`, then
`sys.exit("Bye!")`; if `save` raises, the exception escapes the handler. -/
def keyboardInterruptHandler (ds : Datastore) : ShutdownOutcome :=
  match ds.save with
  | .ok _ => .exited "Bye!"
  | .error e => .uncaught e

/-- C4: at interrupt the handler calls `datastore.save()` once.  For the File
sink this succeeds and the process exits with "Bye!", but for the Database
sink the call raises `AttributeError` — `Database` defines no save/finalize
method at all — so the claimed error-free no-op finalize does not exist and
the orderly exit is never reached. -/
theorem database_shutdown_attribute_error :
    keyboardInterruptHandler (.database ⟨"conninfo", "monitor"⟩) =
      .uncaught "AttributeError: Database object has no attribute save" ∧
    keyboardInterruptHandler
        (.yamlFile ⟨[("0 http://a", ⟨"http://a", 200, 0, 1, 1, "not used"⟩)]⟩) =
      .exited "Bye!" :=
  ⟨rfl, rfl⟩

end Wsmon
